import Mathlib

/-!
Verification of the Scaters Raptor Roadshow 2026 repository.

Two parts are modelled:

1. The rule-based FAQ chatbot (intent classifier, responder, conversation
   history).  The chatbot sources (chatbot.py and the JavaScript copy in
   index.html) are not part of the published source tree, only their
   documentation is, so the chatbot is modelled from the specification:
   normalization is case-fold plus trim, an intent matches when one of its
   configured keywords occurs as a substring of the normalized utterance,
   intents are evaluated in the fixed priority order frustration, location,
   safety, prize, and a non-match falls through to an external delegate or a
   fixed default response.

2. The Express static server (server.js), which is in the source tree: the
   PORT environment-variable fallback expression and the route order
   consisting of the static-file middleware followed by the catch-all GET
   route that serves index.html.
-/

namespace Scaters

/-! ### Text normalization (modelled from the spec) -/

/-- Whitespace test used by trimming. -/
def isWs (c : Char) : Bool :=
  c == ' ' || c == '\t' || c == '\n' || c == '\r'

/-- Remove leading and trailing whitespace from a character list. -/
def trimChars (l : List Char) : List Char :=
  ((l.dropWhile isWs).reverse.dropWhile isWs).reverse

/-- Modelled from the spec: step 1 of the classifier algorithm, given as
case-fold then trim, for the chatbot implementation that is absent from the
source tree. -/
def normalize (s : String) : String :=
  String.mk (trimChars (s.toList.map Char.toLower))

/-- Boolean prefix test on character lists. -/
def leadsWith : List Char → List Char → Bool
  | [], _ => true
  | _ :: _, [] => false
  | a :: as, b :: bs => a == b && leadsWith as bs

/-- Boolean substring-occurrence test on character lists. -/
def occursIn (needle : List Char) : List Char → Bool
  | [] => leadsWith needle []
  | c :: t => leadsWith needle (c :: t) || occursIn needle t

/-- Substring test on strings: does `needle` occur inside `hay`. -/
def strContains (hay needle : String) : Bool :=
  occursIn needle.toList hay.toList

/-- Modelled from the spec: an intent matches if any of its configured
keywords appears as a substring of the normalized utterance. -/
def matchesAny (u : String) (kws : List String) : Bool :=
  kws.any (fun k => strContains u k)

/-! ### Intent configuration and classification (modelled from the spec) -/

/-- Modelled from the spec: the static intent-rule configuration of the
chatbot (keyword lists per intent plus the negative-sentiment marker list),
standing in for the keyword lists of the absent chatbot sources. -/
structure IntentConfig where
  frustrationKeywords : List String
  negativeMarkers : List String
  locationKeywords : List String
  safetyKeywords : List String
  prizeKeywords : List String
  deriving DecidableEq

/-- The five intents recognized by the classifier. -/
inductive Intent where
  | frustration
  | location
  | safety
  | prize
  deriving DecidableEq

/-- Position of an intent in the fixed priority order (smaller is earlier). -/
def Intent.priority : Intent → Nat
  | Intent.frustration => 0
  | Intent.location => 1
  | Intent.safety => 2
  | Intent.prize => 3

/-- Classification outcome: a matched intent, a no-match, or the no-input
result for blank utterances. -/
inductive Category where
  | noInput
  | frustration
  | location
  | safety
  | prize
  | none
  deriving DecidableEq

/-- Category reported when a given intent wins. -/
def Intent.category : Intent → Category
  | Intent.frustration => Category.frustration
  | Intent.location => Category.location
  | Intent.safety => Category.safety
  | Intent.prize => Category.prize

/-- Modelled from the spec: the match condition of each intent.  Frustration
requires a frustration keyword together with an explicit negative-sentiment
marker; the other intents require one of their keywords. -/
def intentMatches (cfg : IntentConfig) (u : String) : Intent → Bool
  | Intent.frustration =>
      matchesAny (normalize u) cfg.frustrationKeywords &&
      matchesAny (normalize u) cfg.negativeMarkers
  | Intent.location => matchesAny (normalize u) cfg.locationKeywords
  | Intent.safety => matchesAny (normalize u) cfg.safetyKeywords
  | Intent.prize => matchesAny (normalize u) cfg.prizeKeywords

/-- Modelled from the spec: the intent classifier of the absent chatbot
sources.  A blank (empty after normalization) utterance yields the no-input
result; otherwise intents are tried in the fixed priority order frustration,
location, safety, prize, and the first match wins; no match yields none. -/
def classify (cfg : IntentConfig) (u : String) : Category :=
  if normalize u = "" then Category.noInput
  else if intentMatches cfg u Intent.frustration then Category.frustration
  else if intentMatches cfg u Intent.location then Category.location
  else if intentMatches cfg u Intent.safety then Category.safety
  else if intentMatches cfg u Intent.prize then Category.prize
  else Category.none

/-- One exchange of the conversation history. -/
structure Exchange where
  userUtterance : String
  responseText : String
  deriving DecidableEq

/-- Modelled from the spec: the classifier contract also receives the rolling
conversation history; the classification algorithm itself does not consult
it. -/
def classifyWithHistory (cfg : IntentConfig) (_hist : List Exchange)
    (u : String) : Category :=
  classify cfg u

/-! ### Responder (modelled from the spec) -/

/-- Style tag of an emitted response. -/
inductive RespCategory where
  | location
  | safety
  | prize
  | frustration
  | default
  deriving DecidableEq

/-- Response payload handed to the display layer. -/
structure Response where
  category : RespCategory
  text : String
  deriving DecidableEq

/-- The static response templates of the responder. -/
structure ResponseTemplates where
  locationText : String
  safetyText : String
  prizeText : String
  frustrationText : String
  promptForInput : String
  fixedDefault : String
  clearConfirm : String
  deriving DecidableEq

/-- Outcome of the optional external generative-AI delegation call. -/
inductive DelegateOutcome where
  | unavailable
  | failure
  | success (answer : String)
  deriving DecidableEq

/-- Modelled from the spec: the responder of the absent chatbot sources.
Each matched intent maps to its template; a blank utterance maps to the
prompt-for-input response; a none classification delegates to the external
call when it succeeds and otherwise falls back to the fixed default. -/
def respond (cfg : IntentConfig) (tpl : ResponseTemplates)
    (d : DelegateOutcome) (u : String) : Response :=
  match classify cfg u with
  | Category.noInput => { category := RespCategory.default, text := tpl.promptForInput }
  | Category.frustration => { category := RespCategory.frustration, text := tpl.frustrationText }
  | Category.location => { category := RespCategory.location, text := tpl.locationText }
  | Category.safety => { category := RespCategory.safety, text := tpl.safetyText }
  | Category.prize => { category := RespCategory.prize, text := tpl.prizeText }
  | Category.none =>
    match d with
    | DelegateOutcome.success a => { category := RespCategory.default, text := a }
    | DelegateOutcome.failure => { category := RespCategory.default, text := tpl.fixedDefault }
    | DelegateOutcome.unavailable => { category := RespCategory.default, text := tpl.fixedDefault }

/-- Per-conversation state: the rolling history, private to the session. -/
structure ChatState where
  history : List Exchange
  deriving DecidableEq

/-- Modelled from the spec: one request/response exchange of the chatbot.
The clear command resets the history to empty; every other utterance is
classified and answered, and the exchange is appended to the history before
the responder returns. -/
def processUtterance (cfg : IntentConfig) (tpl : ResponseTemplates)
    (d : DelegateOutcome) (st : ChatState) (u : String) : Response × ChatState :=
  if normalize u = "clear" then
    ({ category := RespCategory.default, text := tpl.clearConfirm }, { history := [] })
  else
    let r := respond cfg tpl d u
    (r, { history := st.history ++ [{ userUtterance := u, responseText := r.text }] })

/-! ### Concrete configuration (modelled from the spec scenarios) -/

/-- Modelled from the spec: a concrete keyword configuration consistent with
the documented scenarios of the absent chatbot sources, used to witness the
general theorems. -/
def defaultConfig : IntentConfig where
  frustrationKeywords := ["confusing", "frustrat", "annoying", "stupid"]
  negativeMarkers := ["!", "hate", "ugh", "not"]
  locationKeywords := ["where", "location", "city", "venue", "event"]
  safetyKeywords := ["safe", "safety", "fear", "danger", "scared"]
  prizeKeywords := ["win", "prize", "reward", "bounty"]

/-- Modelled from the spec: concrete response templates consistent with the
documented scenarios, used to witness the general theorems. -/
def defaultTemplates : ResponseTemplates where
  locationText := "YOUR MISSION: London Mar 12, Manchester Mar 19, Glasgow Mar 26."
  safetyText := "We prioritize safety above all else: medical teams and equipment checks."
  prizeText := "The bounty is worth the hunt, but some surprises stay under wraps."
  frustrationText := "Whoa! Lets take a kickflip back. We got this together."
  promptForInput := "Please type a question about the roadshow."
  fixedDefault := "I can help with roadshow locations, safety, prizes and the Raptor collection."
  clearConfirm := "Chat history cleared."

/-! ### Express server (embedded from src/server.js) -/

/-- JavaScript value as it appears in the PORT expression of server.js:
an environment variable is a string or undefined, and the literal 3000 is a
number. -/
inductive JSValue where
  | str (s : String)
  | num (n : Int)
  | undefined
  deriving DecidableEq

/-- JavaScript truthiness for the values that can occur in server.js. -/
def truthy : JSValue → Bool
  | JSValue.str s => s != ""
  | JSValue.num n => n != 0
  | JSValue.undefined => false

/-- JavaScript short-circuit or: the left operand when truthy, otherwise the
right operand. -/
def jsOr (a b : JSValue) : JSValue :=
  if truthy a then a else b

/-- Process environment: an association list of variable names to values. -/
abbrev Env := List (String × String)

/-- Reading process.env.k: the stored string when present, else undefined. -/
def envVar (env : Env) (k : String) : JSValue :=
  match List.lookup k env with
  | some v => JSValue.str v
  | Option.none => JSValue.undefined

/-- The expression const PORT = process.env.PORT or 3000 of server.js
(line 4), with the JavaScript short-circuit or. -/
def serverPort (env : Env) : JSValue :=
  jsOr (envVar env "PORT") (JSValue.num 3000)

/-- An incoming HTTP request, as far as the routing of server.js observes
it. -/
structure Request where
  method : String
  path : String
  deriving DecidableEq

/-- What the server sends back for a request. -/
inductive ServerReply where
  | staticFile (p : String)
  | indexHtml
  | notFound
  deriving DecidableEq

/-- Routing of server.js: the express.static middleware (line 7) serves an
existing file of the directory for GET and HEAD requests; otherwise the
catch-all GET route (lines 10-12) sends index.html; anything else falls to
the Express default 404. `staticFiles` is the set of paths that resolve to a
file in the served directory. -/
def handleRequest (staticFiles : List String) (req : Request) : ServerReply :=
  if (req.method == "GET" || req.method == "HEAD") && staticFiles.contains req.path then
    ServerReply.staticFile req.path
  else if req.method == "GET" then
    ServerReply.indexHtml
  else
    ServerReply.notFound

/-! ### Helper lemmas -/

/-- Whenever classification reports the category of some intent, that intent
matches and every strictly higher-priority intent fails to match. -/
theorem classify_priority (cfg : IntentConfig) (u : String) (i : Intent)
    (h : classify cfg u = i.category) :
    intentMatches cfg u i = true ∧
    ∀ j : Intent, j.priority < i.priority → intentMatches cfg u j = false := by
  by_cases h0 : normalize u = ""
  · cases i <;> simp [classify, h0, Intent.category] at h
  · by_cases h1 : intentMatches cfg u Intent.frustration
    · cases i <;> simp [classify, h0, h1, Intent.category] at h
      exact ⟨h1, by intro j hj; cases j <;> simp [Intent.priority] at hj⟩
    · by_cases h2 : intentMatches cfg u Intent.location
      · cases i <;> simp [classify, h0, h1, h2, Intent.category] at h
        refine ⟨h2, ?_⟩
        intro j hj
        cases j <;> simp [Intent.priority] at hj
        exact Bool.eq_false_iff.mpr h1
      · by_cases h3 : intentMatches cfg u Intent.safety
        · cases i <;> simp [classify, h0, h1, h2, h3, Intent.category] at h
          refine ⟨h3, ?_⟩
          intro j hj
          cases j <;> simp [Intent.priority] at hj
          · exact Bool.eq_false_iff.mpr h1
          · exact Bool.eq_false_iff.mpr h2
        · by_cases h4 : intentMatches cfg u Intent.prize
          · cases i <;> simp [classify, h0, h1, h2, h3, h4, Intent.category] at h
            refine ⟨h4, ?_⟩
            intro j hj
            cases j <;> simp [Intent.priority] at hj
            · exact Bool.eq_false_iff.mpr h1
            · exact Bool.eq_false_iff.mpr h2
            · exact Bool.eq_false_iff.mpr h3
          · cases i <;> simp [classify, h0, h1, h2, h3, h4, Intent.category] at h

/-! ### Claims about the intent classifier -/

/-- Claim C1: every utterance containing both a configured frustration
keyword and an explicit negative-sentiment marker is classified as
frustration, regardless of which other keywords also occur, because the
frustration intent is evaluated first in the priority order. -/
theorem classify_frustration_first (cfg : IntentConfig) (u : String)
    (hfr : matchesAny (normalize u) cfg.frustrationKeywords = true)
    (hneg : matchesAny (normalize u) cfg.negativeMarkers = true)
    (hne : normalize u ≠ "") :
    classify cfg u = Category.frustration := by
  simp [classify, intentMatches, hfr, hneg, hne]

/-- Witness for C1: a concrete utterance with a frustration keyword, a
negative marker, and also a location keyword, classified as frustration. -/
theorem classify_frustration_first_witness :
    matchesAny (normalize "This is so confusing!! Where is the event?")
      defaultConfig.frustrationKeywords = true ∧
    matchesAny (normalize "This is so confusing!! Where is the event?")
      defaultConfig.negativeMarkers = true ∧
    matchesAny (normalize "This is so confusing!! Where is the event?")
      defaultConfig.locationKeywords = true ∧
    normalize "This is so confusing!! Where is the event?" ≠ "" ∧
    classify defaultConfig "This is so confusing!! Where is the event?" =
      Category.frustration :=
  ⟨by decide, by decide, by decide, by decide,
   classify_frustration_first defaultConfig
     "This is so confusing!! Where is the event?"
     (by decide) (by decide) (by decide)⟩

/-- Claim C2: every non-blank utterance containing a configured location
keyword and no frustration keyword is classified as location. -/
theorem classify_location_when_no_frustration (cfg : IntentConfig) (u : String)
    (hloc : matchesAny (normalize u) cfg.locationKeywords = true)
    (hfr : matchesAny (normalize u) cfg.frustrationKeywords = false)
    (hne : normalize u ≠ "") :
    classify cfg u = Category.location := by
  simp [classify, intentMatches, hloc, hfr, hne]

/-- Witness for C2: the documented location scenario utterance is classified
as location. -/
theorem classify_location_when_no_frustration_witness :
    matchesAny (normalize "Where is the next event?")
      defaultConfig.locationKeywords = true ∧
    matchesAny (normalize "Where is the next event?")
      defaultConfig.frustrationKeywords = false ∧
    normalize "Where is the next event?" ≠ "" ∧
    classify defaultConfig "Where is the next event?" = Category.location :=
  ⟨by decide, by decide, by decide,
   classify_location_when_no_frustration defaultConfig
     "Where is the next event?" (by decide) (by decide) (by decide)⟩

/-- Claim C3: every non-blank utterance matching no configured keyword of
any intent is classified as none, and the responder then answers with the
delegate answer or with the fixed default response, always producing a
response value. -/
theorem classify_none_fallback (cfg : IntentConfig) (tpl : ResponseTemplates)
    (d : DelegateOutcome) (u : String)
    (hfr : matchesAny (normalize u) cfg.frustrationKeywords = false)
    (hloc : matchesAny (normalize u) cfg.locationKeywords = false)
    (hsaf : matchesAny (normalize u) cfg.safetyKeywords = false)
    (hpr : matchesAny (normalize u) cfg.prizeKeywords = false)
    (hne : normalize u ≠ "") :
    classify cfg u = Category.none ∧
    ((∃ a : String, d = DelegateOutcome.success a ∧
        respond cfg tpl d u = { category := RespCategory.default, text := a }) ∨
      respond cfg tpl d u =
        { category := RespCategory.default, text := tpl.fixedDefault }) := by
  have hc : classify cfg u = Category.none := by
    simp [classify, intentMatches, hfr, hloc, hsaf, hpr, hne]
  refine ⟨hc, ?_⟩
  cases d with
  | success a => exact Or.inl ⟨a, rfl, by simp [respond, hc]⟩
  | failure => exact Or.inr (by simp [respond, hc])
  | unavailable => exact Or.inr (by simp [respond, hc])

/-- Witness for C3: a concrete utterance matching no keyword yields none and
the fixed default when the delegate call fails. -/
theorem classify_none_fallback_witness :
    matchesAny (normalize "hello there") defaultConfig.frustrationKeywords = false ∧
    matchesAny (normalize "hello there") defaultConfig.locationKeywords = false ∧
    matchesAny (normalize "hello there") defaultConfig.safetyKeywords = false ∧
    matchesAny (normalize "hello there") defaultConfig.prizeKeywords = false ∧
    normalize "hello there" ≠ "" ∧
    (classify defaultConfig "hello there" = Category.none ∧
      ((∃ a : String, DelegateOutcome.failure = DelegateOutcome.success a ∧
          respond defaultConfig defaultTemplates DelegateOutcome.failure "hello there" =
            { category := RespCategory.default, text := a }) ∨
        respond defaultConfig defaultTemplates DelegateOutcome.failure "hello there" =
          { category := RespCategory.default,
            text := defaultTemplates.fixedDefault })) :=
  ⟨by decide, by decide, by decide, by decide, by decide,
   classify_none_fallback defaultConfig defaultTemplates DelegateOutcome.failure
     "hello there" (by decide) (by decide) (by decide) (by decide) (by decide)⟩

/-- Claim C4: every utterance produces exactly one terminal response, and
whenever classification reports an intent, that intent matches while every
higher-priority intent fails, so the deterministic priority order selects
exactly one intent. -/
theorem unique_response_and_priority (cfg : IntentConfig)
    (tpl : ResponseTemplates) (d : DelegateOutcome) (u : String) :
    (∃! r : Response, respond cfg tpl d u = r) ∧
    ∀ i : Intent, classify cfg u = i.category →
      intentMatches cfg u i = true ∧
      ∀ j : Intent, j.priority < i.priority → intentMatches cfg u j = false := by
  refine ⟨⟨respond cfg tpl d u, rfl, fun y hy => hy.symm⟩, ?_⟩
  intro i h
  exact classify_priority cfg u i h

/-- Witness for C4: on the documented location utterance the classifier
reports location, location matches, and the single higher-priority intent
(frustration) does not match. -/
theorem unique_response_and_priority_witness :
    classify defaultConfig "Where is the next event?" = Intent.location.category ∧
    (intentMatches defaultConfig "Where is the next event?" Intent.location = true ∧
      ∀ j : Intent, j.priority < Intent.location.priority →
        intentMatches defaultConfig "Where is the next event?" j = false) :=
  ⟨by decide,
   (unique_response_and_priority defaultConfig defaultTemplates
       DelegateOutcome.unavailable "Where is the next event?").2
     Intent.location (by decide)⟩

/-- Claim C5: classification is a pure function of configuration, history
and utterance: equal histories give equal categories, and neither the
delegate outcome nor anything outside those inputs changes the reported
category of the produced response. -/
theorem classify_pure_deterministic (cfg : IntentConfig)
    (tpl : ResponseTemplates) (d₁ d₂ : DelegateOutcome)
    (st₁ st₂ : ChatState) (u : String) :
    classifyWithHistory cfg st₁.history u =
      classifyWithHistory cfg st₂.history u ∧
    (respond cfg tpl d₁ u).category = (respond cfg tpl d₂ u).category := by
  refine ⟨rfl, ?_⟩
  cases hc : classify cfg u <;> simp [respond, hc]
  cases d₁ <;> cases d₂ <;> rfl

/-- Claim C6: each processed utterance appends exactly one exchange, the
user utterance paired with the produced response text, and the clear command
resets the history to empty. -/
theorem history_append_and_clear (cfg : IntentConfig) (tpl : ResponseTemplates)
    (d : DelegateOutcome) (st : ChatState) (u : String) :
    (normalize u ≠ "clear" →
      (processUtterance cfg tpl d st u).2.history =
        st.history ++
          [{ userUtterance := u,
             responseText := ((processUtterance cfg tpl d st u).1).text }] ∧
      (processUtterance cfg tpl d st u).2.history.length =
        st.history.length + 1) ∧
    (normalize u = "clear" →
      (processUtterance cfg tpl d st u).2.history = []) := by
  constructor
  · intro h
    simp [processUtterance, h]
  · intro h
    simp [processUtterance, h]

/-- Witness for C6: processing a greeting from an empty history yields a
one-entry history, and a clear command (here in capitals with padding, to
exercise normalization) empties a non-empty history. -/
theorem history_append_and_clear_witness :
    (normalize "hello" ≠ "clear" ∧
      (processUtterance defaultConfig defaultTemplates
          DelegateOutcome.unavailable { history := [] } "hello").2.history.length =
        ({ history := [] } : ChatState).history.length + 1) ∧
    (normalize "  CLEAR  " = "clear" ∧
      (processUtterance defaultConfig defaultTemplates
          DelegateOutcome.unavailable
          { history := [{ userUtterance := "a", responseText := "b" }] }
          "  CLEAR  ").2.history = []) :=
  ⟨⟨by decide,
    ((history_append_and_clear defaultConfig defaultTemplates
        DelegateOutcome.unavailable { history := [] } "hello").1 (by decide)).2⟩,
   ⟨by decide,
    (history_append_and_clear defaultConfig defaultTemplates
        DelegateOutcome.unavailable
        { history := [{ userUtterance := "a", responseText := "b" }] }
        "  CLEAR  ").2 (by decide)⟩⟩

/-- Claim C7: every utterance that is empty after normalization (empty or
whitespace-only input) is classified as the no-input result and answered
with the prompt-for-input response; the responder still returns a value. -/
theorem blank_input_prompt (cfg : IntentConfig) (tpl : ResponseTemplates)
    (d : DelegateOutcome) (u : String) (h : normalize u = "") :
    classify cfg u = Category.noInput ∧
    respond cfg tpl d u =
      { category := RespCategory.default, text := tpl.promptForInput } := by
  have hc : classify cfg u = Category.noInput := by simp [classify, h]
  exact ⟨hc, by simp [respond, hc]⟩

/-- Witness for C7: a whitespace-only utterance yields the no-input category
and the prompt-for-input response. -/
theorem blank_input_prompt_witness :
    normalize "   " = "" ∧
    (classify defaultConfig "   " = Category.noInput ∧
      respond defaultConfig defaultTemplates DelegateOutcome.unavailable "   " =
        { category := RespCategory.default,
          text := defaultTemplates.promptForInput }) :=
  ⟨by decide,
   blank_input_prompt defaultConfig defaultTemplates DelegateOutcome.unavailable
     "   " (by decide)⟩

/-- Claim C8: when the external delegation call fails (network error,
timeout, non-success status) or is unavailable on the fallback path, the
responder recovers with the fixed default response, never an error value. -/
theorem delegate_failure_default (cfg : IntentConfig) (tpl : ResponseTemplates)
    (u : String) (h : classify cfg u = Category.none) :
    respond cfg tpl DelegateOutcome.failure u =
      { category := RespCategory.default, text := tpl.fixedDefault } ∧
    respond cfg tpl DelegateOutcome.unavailable u =
      { category := RespCategory.default, text := tpl.fixedDefault } := by
  constructor <;> simp [respond, h]

/-- Witness for C8: a concrete unmatched utterance with a failing delegate
call gets the fixed default response. -/
theorem delegate_failure_default_witness :
    classify defaultConfig "tell me a story" = Category.none ∧
    (respond defaultConfig defaultTemplates DelegateOutcome.failure
        "tell me a story" =
      { category := RespCategory.default, text := defaultTemplates.fixedDefault } ∧
     respond defaultConfig defaultTemplates DelegateOutcome.unavailable
        "tell me a story" =
      { category := RespCategory.default,
        text := defaultTemplates.fixedDefault }) :=
  ⟨by decide,
   delegate_failure_default defaultConfig defaultTemplates "tell me a story"
     (by decide)⟩

/-! ### Claims about the Express server -/

/-- Claim C9: every HTTP GET request whose path does not resolve to a static
file of the served directory is answered with the contents of index.html by
the catch-all route of server.js. -/
theorem get_unmatched_serves_index (files : List String) (req : Request)
    (hm : req.method = "GET") (hp : files.contains req.path = false) :
    handleRequest files req = ServerReply.indexHtml := by
  simp [handleRequest, hm, hp]
  simpa using hp

/-- Witness for C9: a GET request for a path with no static file behind it
is served index.html. -/
theorem get_unmatched_serves_index_witness :
    ({ method := "GET", path := "/the-hunt" } : Request).method = "GET" ∧
    (["/index.html", "/robots.txt", "/server.js"].contains
        ({ method := "GET", path := "/the-hunt" } : Request).path) = false ∧
    handleRequest ["/index.html", "/robots.txt", "/server.js"]
        { method := "GET", path := "/the-hunt" } = ServerReply.indexHtml :=
  ⟨by decide, by decide,
   get_unmatched_serves_index ["/index.html", "/robots.txt", "/server.js"]
     { method := "GET", path := "/the-hunt" } (by decide) (by decide)⟩

/-- Counterexample to claim C10 as stated: with PORT set to the empty
string the variable is set, yet the JavaScript short-circuit or of line 4 of
server.js discards it as falsy and the server listens on 3000 instead of
the given value. -/
theorem port_claim_counterexample :
    envVar [("PORT", "")] "PORT" = JSValue.str "" ∧
    serverPort [("PORT", "")] ≠ JSValue.str "" ∧
    serverPort [("PORT", "")] = JSValue.num 3000 := by
  decide

/-- Claim C10 as amended: the server listens on the PORT value when it is
set to a non-empty string, and on 3000 when PORT is unset or set to the
empty string. -/
theorem port_resolution_amended (env : Env) :
    (∀ s : String, envVar env "PORT" = JSValue.str s → s ≠ "" →
      serverPort env = JSValue.str s) ∧
    (envVar env "PORT" = JSValue.undefined →
      serverPort env = JSValue.num 3000) ∧
    (envVar env "PORT" = JSValue.str "" →
      serverPort env = JSValue.num 3000) := by
  refine ⟨?_, ?_, ?_⟩
  · intro s h hs
    simp [serverPort, jsOr, truthy, h, hs]
  · intro h
    simp [serverPort, jsOr, truthy, h]
  · intro h
    simp [serverPort, jsOr, truthy, h]

/-- Witness for the amended C10: a concrete non-empty PORT value is used, an
absent PORT gives 3000, and an empty PORT gives 3000. -/
theorem port_resolution_amended_witness :
    (envVar [("PORT", "8080")] "PORT" = JSValue.str "8080" ∧ "8080" ≠ "" ∧
      serverPort [("PORT", "8080")] = JSValue.str "8080") ∧
    (envVar [] "PORT" = JSValue.undefined ∧ serverPort [] = JSValue.num 3000) ∧
    (envVar [("PORT", "")] "PORT" = JSValue.str "" ∧
      serverPort [("PORT", "")] = JSValue.num 3000) :=
  ⟨⟨by decide, by decide,
    (port_resolution_amended [("PORT", "8080")]).1 "8080" (by decide) (by decide)⟩,
   ⟨by decide, (port_resolution_amended []).2.1 (by decide)⟩,
   ⟨by decide, (port_resolution_amended [("PORT", "")]).2.2 (by decide)⟩⟩

end Scaters
